import Mathlib

/-!
Shallow embedding of the static-fm radio overlay frontend (the Svelte page
variants `src/routes/+page.svelte` and the two unnamed page variants),
covering the per-tick visualization update, the animation-frame scheduling
done by `initAudio` / `reconnectAudio`, the periodic liveness probe, the
reconnect retry branch, the window-intent setters and the
`song-info-update` listener.
-/

namespace StaticFM

/-- `analyser.fftSize = 256` as set in `initAudio` of the AnalyserNode
variants; the Web Audio analyser then reports `frequencyBinCount = fftSize / 2`. -/
def fftSize : Nat := 256

/-- Embedding of the bar update in `+page.svelte` / `part_000`
(`updateVisualization`): `bars = Array.from(dataArray).slice(0, 64)`,
where `dataArray` holds the analyser's byte magnitudes, one per bin. -/
def updateBars (dataArray : List Nat) : List Nat :=
  dataArray.take 64

/-- Embedding of the frequency-values update in `part_001`
(`updateVisualization`): when `values.length >= 64` the first 64 values are
kept (`values.slice(0, 64)`); otherwise a zero-initialized
`Float32Array(64)` receives `values` at offset 0, i.e. the tail stays 0.
Magnitudes are modelled as rationals. -/
def updateFrequencyValues (values : List ℚ) : List ℚ :=
  if 64 ≤ values.length then values.take 64
  else values ++ List.replicate (64 - values.length) 0

/-- The published per-tick vector of `part_001` always has exactly 64 entries. -/
theorem updateFrequencyValues_length (values : List ℚ) :
    (updateFrequencyValues values).length = 64 := by
  unfold updateFrequencyValues
  split
  · rw [List.length_take]
    omega
  · rw [List.length_append, List.length_replicate]
    omega

/-- Browser animation-frame bookkeeping: the queue of callback ids
currently scheduled, the component's `animationFrameId` variable, and the
id the browser hands out next. -/
structure RafState where
  pending : List Nat
  animationFrameId : Option Nat
  nextId : Nat

/-- `requestAnimationFrame(cb)`: appends a fresh callback id to the queue
and returns it. -/
def requestAnimationFrame (s : RafState) : Nat × RafState :=
  (s.nextId,
   { s with pending := s.pending ++ [s.nextId], nextId := s.nextId + 1 })

/-- `cancelAnimationFrame(i)`: removes the callback `i` from the queue. -/
def cancelAnimationFrame (i : Nat) (s : RafState) : RafState :=
  { s with pending := s.pending.erase i }

/-- Scheduling effect of one `updateVisualization` call: both variants end
with `animationFrameId = requestAnimationFrame(updateVisualization)`. -/
def scheduleNextFrame (s : RafState) : RafState :=
  let r := requestAnimationFrame s
  { r.2 with animationFrameId := some r.1 }

/-- Scheduling effect of `initAudio` in `part_001`: it first runs
`if (animationFrameId) cancelAnimationFrame(animationFrameId)`, then (after
recreating the audio element and analyser) calls `updateVisualization`,
which schedules the next frame. -/
def initAudioP1 (s : RafState) : RafState :=
  let s1 :=
    match s.animationFrameId with
    | some i => cancelAnimationFrame i s
    | none => s
  scheduleNextFrame s1

/-- Scheduling effect of `initAudio` in `part_000`: it closes and recreates
the audio context and element but never touches `animationFrameId`; it ends
by calling `updateVisualization`, which schedules a new frame while any
previously scheduled callback stays in the queue. -/
def initAudioP0 (s : RafState) : RafState :=
  scheduleNextFrame s

/-- A scheduled callback firing: the browser removes it from the queue and
runs `updateVisualization`, which (the analyser and context being non-null
after init) publishes and schedules the next frame. -/
def fireNextTick (s : RafState) : RafState :=
  match s.pending with
  | [] => s
  | _ :: rest => scheduleNextFrame { s with pending := rest }

/-- Embedding of one firing of the `setInterval` liveness probe
(`audioCheckInterval` in both unnamed variants): the number of
`reconnectAudio()` calls that firing makes, given the observed
`audioElement` presence, its `readyState` and the `isPlaying` flag. -/
def probeReconnectCount (hasElement : Bool) (readyState : Nat)
    (isPlaying : Bool) : Nat :=
  if hasElement && (readyState == 0) && isPlaying then 1 else 0

/-- The delay of `setTimeout(reconnectAudio, 5000)` in the `catch` branch
of `reconnectAudio`. -/
def RECONNECT_RETRY_DELAY_MS : Nat := 5000

/-- Retry bookkeeping for `reconnectAudio`: failed attempts so far, the
delay of the currently scheduled retry (if one is scheduled), and whether
the code has given up (it has no branch that does). -/
structure RetryState where
  attempts : Nat
  scheduledDelayMs : Option Nat
  gaveUp : Bool

/-- Embedding of the `catch` branch of `reconnectAudio` (both unnamed
variants): log the error, then `setTimeout(reconnectAudio, 5000)` — there
is no attempt counter, no cap and no terminal state. -/
def reconnectFailure (s : RetryState) : RetryState :=
  { attempts := s.attempts + 1,
    scheduledDelayMs := some RECONNECT_RETRY_DELAY_MS,
    gaveUp := false }

/-- The `currentSong` record: `{ title, artist }`, plain strings. -/
structure TrackMetadata where
  title : String
  artist : String
  deriving DecidableEq, Repr

/-- The component's local `$state` relevant to the window-intent setters
and the metadata listener. -/
structure AppState where
  isPinned : Bool
  isMousePassthrough : Bool
  themeColor : String
  currentSong : TrackMetadata
  deriving DecidableEq, Repr

/-- Initial `$state` values of the component: `isPinned = true`,
`isMousePassthrough = false`, `themeColor = '#3498db'`,
`currentSong = { title: 'Loading...', artist: '' }`. -/
def initialAppState : AppState :=
  { isPinned := true, isMousePassthrough := false, themeColor := "#3498db",
    currentSong := { title := "Loading...", artist := "" } }

/-- Observable actions of the window-intent setters: the local `$state`
assignment, the two local window-surface calls, the Tauri `invoke` of a
host command, and a `console.error` log. The log constructor is part of
the vocabulary so the embedding can state that the setters never emit one
(the sources have `console.error` only in the audio paths, not here). -/
inductive BridgeStep where
  | setLocalPinned (b : Bool)
  | setLocalPassthrough (b : Bool)
  | setLocalThemeColor (c : String)
  | windowSetAlwaysOnTop (b : Bool)
  | windowSetIgnoreCursorEvents (b : Bool)
  | invokeHost (cmd : String)
  | logError (msg : String)
  deriving DecidableEq, Repr

/-- Whether a bridge step is a log emission. -/
def BridgeStep.isLog : BridgeStep → Bool
  | .logError _ => true
  | _ => false

/-- Result of one async setter call: the component state afterwards, the
ordered trace of observable actions it performed, and whether the returned
promise resolved (`false` = it rejected; no caller catches it). -/
structure CallResult where
  state : AppState
  trace : List BridgeStep
  resolved : Bool
  deriving DecidableEq, Repr

/-- Embedding of `setAlwaysOnTop(flag)` (all variants): assign
`isPinned = flag` synchronously, `await appWindow.setAlwaysOnTop(flag)`
(success given by `surfaceOk`), then `await invoke('set_always_on_top')`
(success given by `hostOk`). There is no try/catch: a failed await makes
the async function reject without logging and without touching state again;
when the surface call rejects the host invoke is never reached. -/
def setAlwaysOnTop (flag surfaceOk hostOk : Bool) (s : AppState) :
    CallResult :=
  { state := { s with isPinned := flag },
    trace :=
      if surfaceOk then
        [.setLocalPinned flag, .windowSetAlwaysOnTop flag,
         .invokeHost "set_always_on_top"]
      else
        [.setLocalPinned flag, .windowSetAlwaysOnTop flag],
    resolved := surfaceOk && hostOk }

/-- Embedding of `setMousePassthrough(flag)` (all variants): assign
`isMousePassthrough = flag`, `await appWindow.setIgnoreCursorEvents(flag)`,
then `await invoke('set_mouse_passthrough')`; no try/catch, no logging. -/
def setMousePassthrough (flag surfaceOk hostOk : Bool) (s : AppState) :
    CallResult :=
  { state := { s with isMousePassthrough := flag },
    trace :=
      if surfaceOk then
        [.setLocalPassthrough flag, .windowSetIgnoreCursorEvents flag,
         .invokeHost "set_mouse_passthrough"]
      else
        [.setLocalPassthrough flag, .windowSetIgnoreCursorEvents flag],
    resolved := surfaceOk && hostOk }

/-- Embedding of `changeThemeColor(color)` (all variants): assign
`themeColor = color` (the rendered bars read it directly; there is no
window-surface call), then `await invoke('change_theme_color')`;
no try/catch, no logging. -/
def changeThemeColor (color : String) (hostOk : Bool) (s : AppState) :
    CallResult :=
  { state := { s with themeColor := color },
    trace := [.setLocalThemeColor color, .invokeHost "change_theme_color"],
    resolved := hostOk }

/-- The pin button handler: `onclick={() => setAlwaysOnTop(!isPinned)}`,
with the local window-surface call succeeding and the host notification
outcome given by `hostOk`. -/
def togglePin (hostOk : Bool) (s : AppState) : AppState :=
  (setAlwaysOnTop (!s.isPinned) true hostOk s).state

/-- Payload of the `song-info-update` event: `{title?, artist?}`, where
`none` models an absent or `null` field. -/
structure SongInfoPayload where
  title : Option String
  artist : Option String
  deriving DecidableEq, Repr

/-- JavaScript `x || d` on a string field: `null` / absent (`none`) and the
empty string are falsy and yield the default `d`. -/
def jsOrDefault (v : Option String) (d : String) : String :=
  match v with
  | none => d
  | some str => if str = "" then d else str

/-- Embedding of the `song-info-update` listener body (both unnamed
variants): `currentSong = { title: event.payload.title || 'Unknown Title',
artist: event.payload.artist || 'Unknown Artist' }`. -/
def handleSongInfoUpdate (p : SongInfoPayload) : TrackMetadata :=
  { title := jsOrDefault p.title "Unknown Title",
    artist := jsOrDefault p.artist "Unknown Artist" }

/-- The listener as a state update: the whole `currentSong` record is
replaced by the freshly built one; the previous record is never read. -/
def applySongInfoUpdate (s : AppState) (p : SongInfoPayload) : AppState :=
  { s with currentSong := handleSongInfoUpdate p }

/-- `jsOrDefault` never yields the empty string when the default is not
empty. -/
theorem jsOrDefault_ne_empty (v : Option String) (d : String)
    (hd : d ≠ "") : jsOrDefault v d ≠ "" := by
  cases v with
  | none => exact hd
  | some str =>
    show (if str = "" then d else str) ≠ ""
    split
    · exact hd
    · assumption

/-- Modelled from the spec: the `AudioAnalysis` analyzer class
(`$lib/visualizations/wavtools`, imported by `part_001` but absent from
the provided sources). Per spec 4.1 it holds the last computed
magnitude vector across successive pulls. -/
structure SpectralAnalyzer where
  lastVector : List ℚ
  deriving DecidableEq, Repr

/-- Modelled from the spec: the smoothing time-constant, reference value 0.8. -/
def SMOOTHING_TIME_CONSTANT : ℚ := 4 / 5

/-- Modelled from the spec: each output bin is an exponentially weighted
moving average of the instantaneous magnitude across successive samples. -/
def smoothBins (prev incoming : List ℚ) : List ℚ :=
  List.zipWith
    (fun p x => SMOOTHING_TIME_CONSTANT * p + (1 - SMOOTHING_TIME_CONSTANT) * x)
    prev incoming

/-- Modelled from the spec: `sample()` is pull-based and never blocks
(modelled as a total function); when no new audio data is available
(`none`) it returns the last computed vector unchanged; otherwise it
smooths the incoming magnitudes into a new vector and stores it. -/
def sample (a : SpectralAnalyzer) (newData : Option (List ℚ)) :
    List ℚ × SpectralAnalyzer :=
  match newData with
  | none => (a.lastVector, a)
  | some d =>
    let v := smoothBins a.lastVector d
    (v, { lastVector := v })

/-- C1, counterexample: the `+page.svelte` / `part_000` per-tick update
(`bars = Array.from(dataArray).slice(0, 64)`) does not pad — on an
analyser yielding 32 bins the published vector has length 32, not 64. -/
theorem c1_counterexample :
    (updateBars (List.replicate 32 5)).length ≠ 64 := by
  decide

/-- C1, amended: the `part_001` update always publishes exactly 64 values —
the first 64 of the analyser's vector, zero-padded when it yields fewer —
while the `+page.svelte` / `part_000` update publishes the first
`min 64 n` of the `n` bins with no padding; the latter has length exactly
64 only because `fftSize = 256` fixes the bin count at 128. -/
theorem c1_update_lengths :
    (∀ v : List ℚ,
        (updateFrequencyValues v).length = 64 ∧
        updateFrequencyValues v =
          v.take 64 ++ List.replicate (64 - v.length) 0) ∧
    (∀ d : List Nat, (updateBars d).length = min 64 d.length) ∧
    (updateBars (List.replicate (fftSize / 2) 0)).length = 64 := by
  refine ⟨fun v => ⟨updateFrequencyValues_length v, ?_⟩,
    fun d => by rw [updateBars, List.length_take], by decide⟩
  unfold updateFrequencyValues
  split
  · rename_i h
    have h0 : 64 - v.length = 0 := by omega
    rw [h0, List.replicate_zero, List.append_nil]
  · rename_i h
    have hle : v.length ≤ 64 := by omega
    rw [List.take_of_length_le hle]

/-- C2, code-bug evaluation: starting from a pipeline with one scheduled
tick (callback id 7 pending, `animationFrameId = 7`), `part_000`'s
`initAudio` leaves that tick in the queue and schedules a second one, so
two tick loops are concurrently scheduled, and the duplication persists as
the callbacks fire; `part_001`'s `initAudio` cancels the old tick before
scheduling, leaving exactly one. -/
theorem c2_two_loops_after_reconnect :
    (initAudioP0 ⟨[7], some 7, 8⟩).pending = [7, 8] ∧
    (fireNextTick (fireNextTick (initAudioP0 ⟨[7], some 7, 8⟩))).pending.length = 2 ∧
    (initAudioP1 ⟨[7], some 7, 8⟩).pending = [8] := by
  decide

/-- C3: one firing of the liveness probe calls `reconnectAudio()` exactly
once when the audio element exists with `readyState === 0` while
`isPlaying` is true, and no firing ever calls it more than once. -/
theorem c3_probe_single_reconnect (e : Bool) (r : Nat) (p : Bool) :
    probeReconnectCount e r p ≤ 1 ∧
    (e = true → r = 0 → p = true → probeReconnectCount e r p = 1) := by
  constructor
  · unfold probeReconnectCount
    split
    · exact le_refl 1
    · exact Nat.zero_le 1
  · intro he hr hp
    subst he
    subst hr
    subst hp
    rfl

/-- C3 witness: the probe observing `readyState = 0` while playing, with
an audio element present, triggers exactly one reconnect. -/
theorem c3_witness :
    probeReconnectCount true 0 true ≤ 1 ∧
    probeReconnectCount true 0 true = 1 :=
  ⟨(c3_probe_single_reconnect true 0 true).1,
   (c3_probe_single_reconnect true 0 true).2 rfl rfl rfl⟩

/-- C4: the listener substitutes sentinels for null/absent fields —
payload `{title: null, artist: "X"}` stores
`{title: "Unknown Title", artist: "X"}`, an absent artist always stores
"Unknown Artist", and the stored record always holds plain nonempty
strings: no null (nor the equally falsy empty string) is propagated. -/
theorem c4_metadata_defaulting :
    handleSongInfoUpdate { title := none, artist := some "X" } =
      { title := "Unknown Title", artist := "X" } ∧
    (∀ t : Option String,
        (handleSongInfoUpdate { title := t, artist := none }).artist =
          "Unknown Artist") ∧
    (∀ p : SongInfoPayload,
        (handleSongInfoUpdate p).title ≠ "" ∧
        (handleSongInfoUpdate p).artist ≠ "") := by
  refine ⟨by decide, fun t => rfl, fun p => ⟨?_, ?_⟩⟩
  · exact jsOrDefault_ne_empty p.title "Unknown Title" (by decide)
  · exact jsOrDefault_ne_empty p.artist "Unknown Artist" (by decide)

/-- C5: every failed reconnect attempt schedules the next retry after the
flat 5000 ms delay — independent of how many attempts have already
failed, so not exponential — and iterating failures any number of times
never reaches a give-up state and always has a retry scheduled; the
attempt count just keeps growing with no cap. -/
theorem c5_flat_unbounded_retry (n : Nat) (s : RetryState) :
    (reconnectFailure^[n + 1] s).scheduledDelayMs = some 5000 ∧
    (reconnectFailure^[n + 1] s).gaveUp = false ∧
    (reconnectFailure^[n + 1] s).attempts = s.attempts + (n + 1) := by
  induction n generalizing s with
  | zero =>
    refine ⟨rfl, rfl, rfl⟩
  | succ k ih =>
    rw [Function.iterate_succ_apply]
    refine ⟨(ih (reconnectFailure s)).1, (ih (reconnectFailure s)).2.1, ?_⟩
    rw [(ih (reconnectFailure s)).2.2]
    show s.attempts + 1 + (k + 1) = s.attempts + (k + 1 + 1)
    omega

/-- C6, counterexample: with the host notification failing
(`hostOk = false`) on a pin change from the initial state, the setter's
promise rejects but its action trace contains no log step — the failure is
not logged, contrary to the claim (the local change does survive). -/
theorem c6_counterexample :
    (setAlwaysOnTop false true false initialAppState).resolved = false ∧
    (setAlwaysOnTop false true false initialAppState).trace.any
      BridgeStep.isLog = false ∧
    (setAlwaysOnTop false true false initialAppState).state.isPinned =
      false := by
  decide

/-- C6, amended: each setter applies the local change first (the local
state assignment is the first trace step and the host invoke the last),
the local field holds the new value regardless of the host outcome (no
rollback), and — contrary to the original claim — a host failure is not
logged: the trace never contains a log step and the setter's promise
simply rejects, propagating to the caller. -/
theorem c6_local_first_no_rollback_no_log
    (flag hostOk : Bool) (color : String) (s : AppState) :
    ((setAlwaysOnTop flag true hostOk s).state.isPinned = flag ∧
      (setAlwaysOnTop flag true hostOk s).trace.head? =
        some (.setLocalPinned flag) ∧
      (setAlwaysOnTop flag true hostOk s).trace.getLast? =
        some (.invokeHost "set_always_on_top") ∧
      (setAlwaysOnTop flag true hostOk s).trace.any BridgeStep.isLog = false ∧
      (setAlwaysOnTop flag true hostOk s).resolved = hostOk) ∧
    ((setMousePassthrough flag true hostOk s).state.isMousePassthrough = flag ∧
      (setMousePassthrough flag true hostOk s).trace.head? =
        some (.setLocalPassthrough flag) ∧
      (setMousePassthrough flag true hostOk s).trace.getLast? =
        some (.invokeHost "set_mouse_passthrough") ∧
      (setMousePassthrough flag true hostOk s).trace.any BridgeStep.isLog = false ∧
      (setMousePassthrough flag true hostOk s).resolved = hostOk) ∧
    ((changeThemeColor color hostOk s).state.themeColor = color ∧
      (changeThemeColor color hostOk s).trace.head? =
        some (.setLocalThemeColor color) ∧
      (changeThemeColor color hostOk s).trace.getLast? =
        some (.invokeHost "change_theme_color") ∧
      (changeThemeColor color hostOk s).trace.any BridgeStep.isLog = false ∧
      (changeThemeColor color hostOk s).resolved = hostOk) := by
  refine ⟨⟨rfl, ?_, ?_, ?_, ?_⟩, ⟨rfl, ?_, ?_, ?_, ?_⟩,
    ⟨rfl, rfl, rfl, rfl, rfl⟩⟩ <;>
    simp [setAlwaysOnTop, setMousePassthrough, BridgeStep.isLog]

/-- C7: toggling the pin twice returns `isPinned` to its original value,
whatever the outcome of each toggle's host notification. -/
theorem c7_pin_toggle_involution (s : AppState) (h1 h2 : Bool) :
    (togglePin h2 (togglePin h1 s)).isPinned = s.isPinned := by
  simp [togglePin, setAlwaysOnTop]

/-- C8 (spec-modelled analyzer): with no new audio data between the calls,
two successive `sample()` pulls return the same vector — the last computed
vector unchanged, not zeros — and the per-tick vector `part_001` builds
from the pull has exactly 64 elements; `sample` is a total function, so it
cannot block. -/
theorem c8_sample_idempotent (a : SpectralAnalyzer) :
    (sample a none).1 = a.lastVector ∧
    (sample (sample a none).2 none).1 = (sample a none).1 ∧
    (updateFrequencyValues (sample a none).1).length = 64 :=
  ⟨rfl, rfl, updateFrequencyValues_length (sample a none).1⟩

/-- C9: each setter mutates exactly its own field — the other two
window-intent fields and the stored track metadata are unchanged by the
call, whatever the surface/host outcomes. -/
theorem c9_frame_conditions
    (flag surfaceOk hostOk : Bool) (color : String) (s : AppState) :
    ((setAlwaysOnTop flag surfaceOk hostOk s).state.isMousePassthrough =
        s.isMousePassthrough ∧
      (setAlwaysOnTop flag surfaceOk hostOk s).state.themeColor =
        s.themeColor ∧
      (setAlwaysOnTop flag surfaceOk hostOk s).state.currentSong =
        s.currentSong) ∧
    ((setMousePassthrough flag surfaceOk hostOk s).state.isPinned =
        s.isPinned ∧
      (setMousePassthrough flag surfaceOk hostOk s).state.themeColor =
        s.themeColor ∧
      (setMousePassthrough flag surfaceOk hostOk s).state.currentSong =
        s.currentSong) ∧
    ((changeThemeColor color hostOk s).state.isPinned = s.isPinned ∧
      (changeThemeColor color hostOk s).state.isMousePassthrough =
        s.isMousePassthrough ∧
      (changeThemeColor color hostOk s).state.currentSong = s.currentSong) :=
  ⟨⟨rfl, rfl, rfl⟩, ⟨rfl, rfl, rfl⟩, ⟨rfl, rfl, rfl⟩⟩

/-- C10: every `song-info-update` event replaces the stored track metadata
wholesale — the stored result depends only on the payload, not on the
previous state — and a payload carrying only a title overwrites the
previously stored artist with "Unknown Artist" rather than keeping it. -/
theorem c10_wholesale_replacement
    (s1 s2 : AppState) (p : SongInfoPayload) (t : String) :
    (applySongInfoUpdate s1 p).currentSong =
      (applySongInfoUpdate s2 p).currentSong ∧
    (applySongInfoUpdate s1 { title := some t, artist := none
      }).currentSong.artist = "Unknown Artist" :=
  ⟨rfl, rfl⟩

end StaticFM
